import Mathlib

/-!
Verification of the NDV panel layout engine
(`packages/frontend/editor-ui/src/features/ndv/panel/composables/useNdvLayout.ts`).

The engine allocates horizontal space among three panels (left, main, right)
as percentages of a container width, normalizes candidate allocations,
persists them per layout variant, and mutates them through edge-resize and
divider-drag gestures.

JavaScript numbers are modelled by `JsNum`: NaN, the two infinities, and
finite values represented as exact rationals.  Container width is modelled
as a rational (the DOM size observer reports a real, non-negative pixel
width); the JavaScript guard `!w || w <= 0` coincides with `w ≤ 0` on such
values.  `localStorage` for the single variant-qualified key in use is
modelled as `Option StoredValue`, where a stored string is either
unparseable or parses to a panel-size triple; `JSON.stringify` renders
non-finite numbers as `null`, whose parsed form fails `Number.isFinite`
exactly as NaN does, so it is folded into `JsNum.nan`.
-/

namespace NdvLayout

/-- A JavaScript number: NaN, +Infinity, -Infinity, or a finite value
(modelled as an exact rational). -/
inductive JsNum where
  | nan : JsNum
  | inf : JsNum
  | ninf : JsNum
  | fin (q : ℚ) : JsNum
deriving DecidableEq, Repr

namespace JsNum

/-- JavaScript addition. -/
def add : JsNum → JsNum → JsNum
  | .nan, _ => .nan
  | _, .nan => .nan
  | .inf, .ninf => .nan
  | .ninf, .inf => .nan
  | .inf, _ => .inf
  | _, .inf => .inf
  | .ninf, _ => .ninf
  | _, .ninf => .ninf
  | .fin a, .fin b => .fin (a + b)

/-- JavaScript negation. -/
def neg : JsNum → JsNum
  | .nan => .nan
  | .inf => .ninf
  | .ninf => .inf
  | .fin a => .fin (-a)

/-- JavaScript subtraction. -/
def sub (a b : JsNum) : JsNum := add a (neg b)

/-- JavaScript multiplication (zero times an infinity is NaN). -/
def mul : JsNum → JsNum → JsNum
  | .nan, _ => .nan
  | _, .nan => .nan
  | .inf, .inf => .inf
  | .inf, .ninf => .ninf
  | .ninf, .inf => .ninf
  | .ninf, .ninf => .inf
  | .inf, .fin q => if q = 0 then .nan else if 0 < q then .inf else .ninf
  | .fin q, .inf => if q = 0 then .nan else if 0 < q then .inf else .ninf
  | .ninf, .fin q => if q = 0 then .nan else if 0 < q then .ninf else .inf
  | .fin q, .ninf => if q = 0 then .nan else if 0 < q then .ninf else .inf
  | .fin a, .fin b => .fin (a * b)

/-- JavaScript division: `0/0` is NaN, a nonzero finite value divided by
zero is a signed infinity, an infinity divided by an infinity is NaN. -/
def div : JsNum → JsNum → JsNum
  | .nan, _ => .nan
  | _, .nan => .nan
  | .inf, .inf => .nan
  | .inf, .ninf => .nan
  | .ninf, .inf => .nan
  | .ninf, .ninf => .nan
  | .inf, .fin q => if 0 ≤ q then .inf else .ninf
  | .ninf, .fin q => if 0 ≤ q then .ninf else .inf
  | .fin _, .inf => .fin 0
  | .fin _, .ninf => .fin 0
  | .fin a, .fin b =>
      if b = 0 then (if a = 0 then .nan else if 0 < a then .inf else .ninf)
      else .fin (a / b)

/-- `Math.max` on two values: NaN if either argument is NaN. -/
def max2 : JsNum → JsNum → JsNum
  | .nan, _ => .nan
  | _, .nan => .nan
  | .inf, _ => .inf
  | _, .inf => .inf
  | .ninf, b => b
  | a, .ninf => a
  | .fin a, .fin b => .fin (max a b)

/-- The JavaScript `<` comparison (false whenever an operand is NaN). -/
def lt : JsNum → JsNum → Bool
  | .nan, _ => false
  | _, .nan => false
  | .inf, _ => false
  | _, .inf => true
  | .ninf, .ninf => false
  | .ninf, _ => true
  | _, .ninf => false
  | .fin a, .fin b => decide (a < b)

/-- The JavaScript `<=` comparison (false whenever an operand is NaN). -/
def le : JsNum → JsNum → Bool
  | .nan, _ => false
  | _, .nan => false
  | .inf, .inf => true
  | .inf, _ => false
  | _, .inf => true
  | .ninf, _ => true
  | _, .ninf => false
  | .fin a, .fin b => decide (a ≤ b)

/-- `Number.isFinite`. -/
def isFin : JsNum → Bool
  | .fin _ => true
  | _ => false

/-- The rational carried by a finite value (0 for non-finite values). -/
def toQ : JsNum → ℚ
  | .fin q => q
  | _ => 0

end JsNum

/-- The panel size triple (`NdvPanelsSize` in the source). -/
structure NdvPanelsSize where
  left : JsNum
  main : JsNum
  right : JsNum
deriving DecidableEq, Repr

/-- The layout variants (`MainPanelType` in the source). -/
inductive MainPanelType where
  | regular | dragless | inputless | wide | unknown
deriving DecidableEq, Repr

/-- `MIN_MAIN_PANEL_WIDTH_PX` from the source. -/
def MIN_MAIN_PANEL_WIDTH_PX : ℚ := 368

/-- `MIN_PANEL_WIDTH_PX` from the source. -/
def MIN_PANEL_WIDTH_PX : ℚ := 120

/-- `DEFAULT_INPUTLESS_MAIN_WIDTH_PX` from the source. -/
def DEFAULT_INPUTLESS_MAIN_WIDTH_PX : ℚ := 480

/-- `DEFAULT_WIDE_MAIN_WIDTH_PX` from the source. -/
def DEFAULT_WIDE_MAIN_WIDTH_PX : ℚ := 640

/-- `DEFAULT_REGULAR_MAIN_WIDTH_PX` from the source. -/
def DEFAULT_REGULAR_MAIN_WIDTH_PX : ℚ := 420

/-- `percentageToPixels`: 0 when the container width is not positive, else
`percentage / 100 * containerWidth`. -/
def percentageToPixels (containerWidth : ℚ) (percentage : JsNum) : JsNum :=
  if containerWidth ≤ 0 then .fin 0
  else JsNum.mul (JsNum.div percentage (.fin 100)) (.fin containerWidth)

/-- `pixelsToPercentage`: 0 when the container width is not positive, else
`pixels / containerWidth * 100`. -/
def pixelsToPercentage (containerWidth : ℚ) (pixels : JsNum) : JsNum :=
  if containerWidth ≤ 0 then .fin 0
  else JsNum.mul (JsNum.div pixels (.fin containerWidth)) (.fin 100)

/-- `minMainPanelWidthPercentage`. -/
def minMainPanelWidthPercentage (cw : ℚ) : JsNum :=
  pixelsToPercentage cw (.fin MIN_MAIN_PANEL_WIDTH_PX)

/-- `minPanelWidthPercentage`. -/
def minPanelWidthPercentage (cw : ℚ) : JsNum :=
  pixelsToPercentage cw (.fin MIN_PANEL_WIDTH_PX)

/-- `defaultPanelSize`: variant-specific default allocation, with fixed
percentage fallbacks when the container width is unavailable. -/
def defaultPanelSize (cw : ℚ) (paneType : MainPanelType) : NdvPanelsSize :=
  if cw ≤ 0 then
    match paneType with
    | .inputless => ⟨.fin 0, .fin 40, .fin 60⟩
    | .wide => ⟨.fin (47/2), .fin 53, .fin (47/2)⟩
    | _ => ⟨.fin (65/2), .fin 35, .fin (65/2)⟩
  else
    match paneType with
    | .inputless =>
        let m := pixelsToPercentage cw (.fin DEFAULT_INPUTLESS_MAIN_WIDTH_PX)
        ⟨.fin 0, m, JsNum.sub (.fin 100) m⟩
    | .wide =>
        let m := pixelsToPercentage cw (.fin DEFAULT_WIDE_MAIN_WIDTH_PX)
        let panels := JsNum.div (JsNum.sub (.fin 100) m) (.fin 2)
        ⟨panels, m, panels⟩
    | _ =>
        let m := pixelsToPercentage cw (.fin DEFAULT_REGULAR_MAIN_WIDTH_PX)
        let panels := JsNum.div (JsNum.sub (.fin 100) m) (.fin 2)
        ⟨panels, m, panels⟩

/-- `sanitizeValue` inside `safePanelWidth`: non-finite or negative
values become 0.  The result is always finite, so the embedding returns
the rational directly. -/
def sanitizeValue (value : JsNum) : ℚ :=
  if !(JsNum.isFin value) || JsNum.lt value (.fin 0) then 0 else JsNum.toQ value

/-- `safePanelWidth`: sanitize each field, clamp to per-panel minimums,
and when the clamped values total more than 100, trim the excess from the
outer panels proportionally (re-clamping to the minimums afterwards). -/
def safePanelWidth (cw : ℚ) (hasInputPanel : Bool) (p : NdvPanelsSize) :
    NdvPanelsSize :=
  let sanitizedLeft : JsNum := .fin (sanitizeValue p.left)
  let sanitizedMain : JsNum := .fin (sanitizeValue p.main)
  let sanitizedRight : JsNum := .fin (sanitizeValue p.right)
  let minLeft : JsNum := if hasInputPanel then minPanelWidthPercentage cw else .fin 0
  let minRight : JsNum := minPanelWidthPercentage cw
  let minMain : JsNum := minMainPanelWidthPercentage cw
  let newLeft := JsNum.max2 minLeft sanitizedLeft
  let newMain := JsNum.max2 minMain sanitizedMain
  let newRight := JsNum.max2 minRight sanitizedRight
  let total := JsNum.add (JsNum.add newLeft newMain) newRight
  if JsNum.lt (.fin 100) total then
    let overflow := JsNum.sub total (.fin 100)
    let trimLeft := JsNum.mul (JsNum.div newLeft (JsNum.add newLeft newRight)) overflow
    let trimRight := JsNum.sub overflow trimLeft
    { left := JsNum.max2 minLeft (JsNum.sub newLeft trimLeft)
      main := newMain
      right := JsNum.max2 minRight (JsNum.sub newRight trimRight) }
  else
    { left := newLeft, main := newMain, right := newRight }

/-- A stored value under the variant key: either a string that fails JSON
parsing, or one that parses to a panel-size triple. -/
inductive StoredValue where
  | unparseable : StoredValue
  | parsed (p : NdvPanelsSize) : StoredValue
deriving DecidableEq, Repr

/-- `JSON.stringify` renders NaN and the infinities as `null`; the parsed
`null` field fails `Number.isFinite` exactly as NaN does, so both are
represented by `JsNum.nan`.  Finite values round-trip exactly. -/
def jsonField (v : JsNum) : JsNum :=
  match v with
  | .fin q => .fin q
  | _ => .nan

/-- The stringify-then-parse image of a panel-size triple. -/
def jsonRound (p : NdvPanelsSize) : NdvPanelsSize :=
  ⟨jsonField p.left, jsonField p.main, jsonField p.right⟩

/-- `persistPanelSize`: serializes the current allocation under the
variant key (modelled for the single key in use). -/
def persistPanelSize (state : NdvPanelsSize) : Option StoredValue :=
  some (.parsed (jsonRound state))

/-- The validity check inside `loadPanelSize`: all fields finite and
non-negative and the total at most 200. -/
def isValidStoredSize (s : NdvPanelsSize) : Bool :=
  JsNum.isFin s.left && JsNum.isFin s.main && JsNum.isFin s.right &&
  JsNum.le (.fin 0) s.left && JsNum.le (.fin 0) s.main && JsNum.le (.fin 0) s.right &&
  JsNum.le (JsNum.add (JsNum.add s.left s.main) s.right) (.fin 200)

/-- `loadPanelSize`: reads the variant key; a present value that parses
and validates is normalized and committed; an invalid value causes the
key to be removed and the default to be used; an absent value uses the
default.  An unparseable value yields the `jsonParse` fallback (the
default allocation), which then goes through the same validity check.
Returns the key contents after the call together with the committed
allocation. -/
def loadPanelSize (cw : ℚ) (hasInputPanel : Bool) (paneType : MainPanelType)
    (store : Option StoredValue) : Option StoredValue × NdvPanelsSize :=
  let defaultSize := defaultPanelSize cw paneType
  match store with
  | some stored =>
      let storedPanelSize :=
        match stored with
        | .unparseable => defaultSize
        | .parsed p => p
      if isValidStoredSize storedPanelSize then
        (store, safePanelWidth cw hasInputPanel storedPanelSize)
      else
        (none, safePanelWidth cw hasInputPanel defaultSize)
  | none => (none, safePanelWidth cw hasInputPanel defaultSize)

/-- The direction tag of a resize event; tags other than `left`/`right`
leave the allocation unchanged. -/
inductive ResizeDirection where
  | left | right | other
deriving DecidableEq, Repr

/-- The `ResizeData` fields consumed by `onResize`. -/
structure ResizeData where
  width : JsNum
  direction : ResizeDirection
deriving DecidableEq, Repr

/-- `onResize`: recompute the main width from the event, and shrink the
panel on the named side by the main-width delta, rejecting the gesture
when that panel would fall below the minimum panel width. -/
def onResize (cw : ℚ) (hasInputPanel : Bool) (state : NdvPanelsSize)
    (event : ResizeData) : NdvPanelsSize :=
  let newMain := JsNum.max2 (minMainPanelWidthPercentage cw)
    (pixelsToPercentage cw event.width)
  let initialLeft := state.left
  let initialMain := state.main
  let initialRight := state.right
  let diffMain := JsNum.sub newMain initialMain
  match event.direction with
  | .left =>
      let potentialLeft := JsNum.sub initialLeft diffMain
      if JsNum.lt potentialLeft (minPanelWidthPercentage cw) then state
      else
        safePanelWidth cw hasInputPanel
          { left := JsNum.max2 (minPanelWidthPercentage cw) potentialLeft
            main := newMain
            right := initialRight }
  | .right =>
      let potentialRight := JsNum.sub initialRight diffMain
      if JsNum.lt potentialRight (minPanelWidthPercentage cw) then state
      else
        safePanelWidth cw hasInputPanel
          { left := initialLeft
            main := newMain
            right := JsNum.max2 (minPanelWidthPercentage cw) potentialRight }
  | .other => state

/-- The candidate left width computed by `onDrag`: the pointer position
as a percentage, shifted left by half the main width, clamped to the
minimum panel width. -/
def dragNewLeft (cw : ℚ) (state : NdvPanelsSize) (positionX : JsNum) : JsNum :=
  JsNum.max2 (minPanelWidthPercentage cw)
    (JsNum.sub (pixelsToPercentage cw positionX) (JsNum.div state.main (.fin 2)))

/-- The candidate right width computed by `onDrag`: the remaining share,
clamped to the minimum panel width. -/
def dragNewRight (cw : ℚ) (state : NdvPanelsSize) (positionX : JsNum) : JsNum :=
  JsNum.max2 (minPanelWidthPercentage cw)
    (JsNum.sub (JsNum.sub (.fin 100) (dragNewLeft cw state positionX)) state.main)

/-- `onDrag`: reposition the main panel under the pointer, rejecting the
gesture when the candidate widths total more than 100; on commit only the
left and right fields are written. -/
def onDrag (cw : ℚ) (hasInputPanel : Bool) (state : NdvPanelsSize)
    (positionX : JsNum) : NdvPanelsSize :=
  let newLeft := dragNewLeft cw state positionX
  let newRight := dragNewRight cw state positionX
  if JsNum.lt (.fin 100) (JsNum.add (JsNum.add newLeft state.main) newRight) then
    state
  else
    let sanitized := safePanelWidth cw hasInputPanel
      { left := newLeft, main := state.main, right := newRight }
    { left := sanitized.left, main := state.main, right := sanitized.right }

/-! ## Rational-level views of the engine quantities

These restate, field by field, the quantities computed inside
`safePanelWidth` (source lines 105-142) at the rational level, for use in
theorem statements; `safePanelWidth_char` below proves that the embedded
function is exactly described by them. -/

/-- The minimum outer-panel width as a percentage (a rational; the
embedded `minPanelWidthPercentage` always yields a finite value). -/
def minPanelPctQ (cw : ℚ) : ℚ := (minPanelWidthPercentage cw).toQ

/-- The minimum main-panel width as a percentage. -/
def minMainPctQ (cw : ℚ) : ℚ := (minMainPanelWidthPercentage cw).toQ

/-- The minimum left-panel width used by `safePanelWidth`: the panel
minimum when an input panel is present, else 0. -/
def minLeftPctQ (cw : ℚ) (hasInputPanel : Bool) : ℚ :=
  if hasInputPanel then minPanelPctQ cw else 0

/-- The sanitized left value clamped to its minimum. -/
def clampedLeft (cw : ℚ) (hi : Bool) (p : NdvPanelsSize) : ℚ :=
  max (minLeftPctQ cw hi) (sanitizeValue p.left)

/-- The sanitized main value clamped to its minimum. -/
def clampedMain (cw : ℚ) (p : NdvPanelsSize) : ℚ :=
  max (minMainPctQ cw) (sanitizeValue p.main)

/-- The sanitized right value clamped to its minimum. -/
def clampedRight (cw : ℚ) (p : NdvPanelsSize) : ℚ :=
  max (minPanelPctQ cw) (sanitizeValue p.right)

/-- The total of the clamped values. -/
def clampedTotal (cw : ℚ) (hi : Bool) (p : NdvPanelsSize) : ℚ :=
  clampedLeft cw hi p + clampedMain cw p + clampedRight cw p

/-- The share of the overflow trimmed from the left panel. -/
def trimLeftQ (cw : ℚ) (hi : Bool) (p : NdvPanelsSize) : ℚ :=
  clampedLeft cw hi p / (clampedLeft cw hi p + clampedRight cw p) *
    (clampedTotal cw hi p - 100)

/-- The share of the overflow trimmed from the right panel. -/
def trimRightQ (cw : ℚ) (hi : Bool) (p : NdvPanelsSize) : ℚ :=
  (clampedTotal cw hi p - 100) - trimLeftQ cw hi p

/-- The JavaScript sum `left + main + right` of a panel-size triple. -/
def panelsTotal (p : NdvPanelsSize) : JsNum :=
  JsNum.add (JsNum.add p.left p.main) p.right

/-! ## Reduction lemmas for the JavaScript number operations -/

namespace JsNum

@[simp] lemma add_fin (a b : ℚ) : add (.fin a) (.fin b) = .fin (a + b) := rfl

@[simp] lemma add_fin_nan (a : ℚ) : add (.fin a) .nan = .nan := rfl

@[simp] lemma add_nan (x : JsNum) : add .nan x = .nan := by cases x <;> rfl

@[simp] lemma sub_fin (a b : ℚ) : sub (.fin a) (.fin b) = .fin (a - b) := by
  simp [sub, neg, add, sub_eq_add_neg]

@[simp] lemma sub_fin_nan (a : ℚ) : sub (.fin a) .nan = .nan := rfl

@[simp] lemma max2_fin (a b : ℚ) : max2 (.fin a) (.fin b) = .fin (max a b) := rfl

@[simp] lemma max2_fin_nan (a : ℚ) : max2 (.fin a) .nan = .nan := rfl

@[simp] lemma mul_fin (a b : ℚ) : mul (.fin a) (.fin b) = .fin (a * b) := rfl

@[simp] lemma mul_nan (x : JsNum) : mul .nan x = .nan := by cases x <;> rfl

@[simp] lemma lt_fin (a b : ℚ) : lt (.fin a) (.fin b) = decide (a < b) := rfl

@[simp] lemma le_fin (a b : ℚ) : le (.fin a) (.fin b) = decide (a ≤ b) := rfl

lemma div_fin_of_ne (a b : ℚ) (hb : b ≠ 0) : div (.fin a) (.fin b) = .fin (a / b) := by
  simp [div, hb]

@[simp] lemma div_zero_zero : div (.fin 0) (.fin 0) = .nan := rfl

@[simp] lemma toQ_fin (q : ℚ) : toQ (.fin q) = q := rfl

@[simp] lemma isFin_fin (q : ℚ) : isFin (.fin q) = true := rfl

end JsNum

lemma pixelsToPercentage_fin (cw px : ℚ) :
    pixelsToPercentage cw (.fin px) = .fin (if cw ≤ 0 then 0 else px / cw * 100) := by
  unfold pixelsToPercentage
  split_ifs with h
  · rfl
  · have hne : cw ≠ 0 := fun e => h (le_of_eq e)
    rw [JsNum.div_fin_of_ne _ _ hne, JsNum.mul_fin]

lemma minPanelWidthPercentage_eq (cw : ℚ) :
    minPanelWidthPercentage cw = .fin (minPanelPctQ cw) := by
  rw [minPanelPctQ, minPanelWidthPercentage, pixelsToPercentage_fin, JsNum.toQ_fin]

lemma minMainPanelWidthPercentage_eq (cw : ℚ) :
    minMainPanelWidthPercentage cw = .fin (minMainPctQ cw) := by
  rw [minMainPctQ, minMainPanelWidthPercentage, pixelsToPercentage_fin, JsNum.toQ_fin]

lemma minPanelPctQ_eq (cw : ℚ) :
    minPanelPctQ cw = if cw ≤ 0 then 0 else 120 / cw * 100 := by
  rw [minPanelPctQ, minPanelWidthPercentage, MIN_PANEL_WIDTH_PX, pixelsToPercentage_fin,
    JsNum.toQ_fin]

lemma minMainPctQ_eq (cw : ℚ) :
    minMainPctQ cw = if cw ≤ 0 then 0 else 368 / cw * 100 := by
  rw [minMainPctQ, minMainPanelWidthPercentage, MIN_MAIN_PANEL_WIDTH_PX,
    pixelsToPercentage_fin, JsNum.toQ_fin]

lemma minPanelPctQ_nonneg (cw : ℚ) : 0 ≤ minPanelPctQ cw := by
  rw [minPanelPctQ_eq]
  split_ifs with h
  · exact le_refl 0
  · have hcw : 0 < cw := not_le.mp h
    positivity

lemma minPanelPctQ_pos (cw : ℚ) (h : 0 < cw) : 0 < minPanelPctQ cw := by
  rw [minPanelPctQ_eq]
  rw [if_neg (not_le.mpr h)]
  positivity

lemma minMainPctQ_nonneg (cw : ℚ) : 0 ≤ minMainPctQ cw := by
  rw [minMainPctQ_eq]
  split_ifs with h
  · exact le_refl 0
  · have hcw : 0 < cw := not_le.mp h
    positivity

lemma minLeftPctQ_nonneg (cw : ℚ) (hi : Bool) : 0 ≤ minLeftPctQ cw hi := by
  rw [minLeftPctQ]
  split_ifs
  · exact minPanelPctQ_nonneg cw
  · exact le_refl 0

lemma sanitizeValue_nonneg (v : JsNum) : 0 ≤ sanitizeValue v := by
  cases v with
  | fin q =>
      by_cases h : q < 0 <;>
        simp [sanitizeValue, JsNum.isFin, JsNum.lt, JsNum.toQ, h]
      exact le_of_not_lt h
  | nan => simp [sanitizeValue, JsNum.isFin]
  | inf => simp [sanitizeValue, JsNum.isFin]
  | ninf => simp [sanitizeValue, JsNum.isFin]

lemma sanitizeValue_fin_of_nonneg (q : ℚ) (h : 0 ≤ q) : sanitizeValue (.fin q) = q := by
  simp [sanitizeValue, JsNum.isFin, JsNum.lt, JsNum.toQ, not_lt.mpr h]

lemma clampedLeft_nonneg (cw : ℚ) (hi : Bool) (p : NdvPanelsSize) :
    0 ≤ clampedLeft cw hi p :=
  le_trans (minLeftPctQ_nonneg cw hi) (le_max_left _ _)

lemma clampedMain_nonneg (cw : ℚ) (p : NdvPanelsSize) : 0 ≤ clampedMain cw p :=
  le_trans (minMainPctQ_nonneg cw) (le_max_left _ _)

lemma clampedRight_nonneg (cw : ℚ) (p : NdvPanelsSize) : 0 ≤ clampedRight cw p :=
  le_trans (minPanelPctQ_nonneg cw) (le_max_left _ _)

/-- Structural characterization of `safePanelWidth`: clamp the sanitized
values to their minimums; when the total exceeds 100 trim the outer
panels proportionally and re-clamp, except that when both clamped outer
panels are zero the proportional trim divides zero by zero and NaN
propagates into both outer fields. -/
lemma safePanelWidth_char (cw : ℚ) (hi : Bool) (p : NdvPanelsSize) :
    safePanelWidth cw hi p =
      if 100 < clampedTotal cw hi p then
        if clampedLeft cw hi p + clampedRight cw p = 0 then
          { left := .nan, main := .fin (clampedMain cw p), right := .nan }
        else
          { left := .fin (max (minLeftPctQ cw hi)
              (clampedLeft cw hi p - trimLeftQ cw hi p)),
            main := .fin (clampedMain cw p),
            right := .fin (max (minPanelPctQ cw)
              (clampedRight cw p - trimRightQ cw hi p)) }
      else
        { left := .fin (clampedLeft cw hi p), main := .fin (clampedMain cw p),
          right := .fin (clampedRight cw p) } := by
  have hminL : (if hi then minPanelWidthPercentage cw else JsNum.fin 0) =
      JsNum.fin (minLeftPctQ cw hi) := by
    cases hi <;> simp [minLeftPctQ, minPanelWidthPercentage_eq]
  unfold safePanelWidth
  rw [hminL, minPanelWidthPercentage_eq, minMainPanelWidthPercentage_eq]
  simp only [JsNum.max2_fin, JsNum.add_fin, JsNum.lt_fin]
  rw [show max (minLeftPctQ cw hi) (sanitizeValue p.left) = clampedLeft cw hi p from rfl,
    show max (minMainPctQ cw) (sanitizeValue p.main) = clampedMain cw p from rfl,
    show max (minPanelPctQ cw) (sanitizeValue p.right) = clampedRight cw p from rfl,
    show clampedLeft cw hi p + clampedMain cw p + clampedRight cw p =
      clampedTotal cw hi p from rfl]
  by_cases hT : 100 < clampedTotal cw hi p
  · rw [if_pos (by exact decide_eq_true hT), if_pos hT]
    by_cases hz : clampedLeft cw hi p + clampedRight cw p = 0
    · rw [if_pos hz]
      have hl0 : clampedLeft cw hi p = 0 := by
        have h1 := clampedLeft_nonneg cw hi p
        have h2 := clampedRight_nonneg cw p
        linarith
      have hr0 : clampedRight cw p = 0 := by
        have h1 := clampedLeft_nonneg cw hi p
        linarith
      rw [hz, hl0, hr0]
      simp [JsNum.div, JsNum.mul, JsNum.sub, JsNum.neg, JsNum.add]
    · rw [if_neg hz, JsNum.div_fin_of_ne _ _ hz]
      simp only [JsNum.sub_fin, JsNum.mul_fin, JsNum.max2_fin]
      rfl
  · rw [if_neg (by simpa using hT), if_neg hT]

/-- A triple whose fields are finite, at or above their minimums, and
total at most 100 is a fixed point of `safePanelWidth`. -/
lemma safePanelWidth_fixed (cw : ℚ) (hi : Bool) (l m r : ℚ)
    (hl : minLeftPctQ cw hi ≤ l) (hm : minMainPctQ cw ≤ m)
    (hr : minPanelPctQ cw ≤ r) (hsum : l + m + r ≤ 100) :
    safePanelWidth cw hi ⟨.fin l, .fin m, .fin r⟩ = ⟨.fin l, .fin m, .fin r⟩ := by
  have h0l : (0:ℚ) ≤ l := le_trans (minLeftPctQ_nonneg cw hi) hl
  have h0m : (0:ℚ) ≤ m := le_trans (minMainPctQ_nonneg cw) hm
  have h0r : (0:ℚ) ≤ r := le_trans (minPanelPctQ_nonneg cw) hr
  have hcl : clampedLeft cw hi ⟨.fin l, .fin m, .fin r⟩ = l := by
    show max (minLeftPctQ cw hi) (sanitizeValue (.fin l)) = l
    rw [sanitizeValue_fin_of_nonneg l h0l]
    exact max_eq_right hl
  have hcm : clampedMain cw ⟨.fin l, .fin m, .fin r⟩ = m := by
    show max (minMainPctQ cw) (sanitizeValue (.fin m)) = m
    rw [sanitizeValue_fin_of_nonneg m h0m]
    exact max_eq_right hm
  have hcr : clampedRight cw ⟨.fin l, .fin m, .fin r⟩ = r := by
    show max (minPanelPctQ cw) (sanitizeValue (.fin r)) = r
    rw [sanitizeValue_fin_of_nonneg r h0r]
    exact max_eq_right hr
  rw [safePanelWidth_char, clampedTotal, hcl, hcm, hcr, if_neg (not_lt.mpr hsum)]

/-- C1: for every candidate triple (including NaN, infinite, negative, or
all-zero fields), when the container width is positive `safePanelWidth`
returns three finite non-negative values, each at least its computed
minimum (`minLeft` is the panel minimum when an input panel is present
and 0 otherwise, `minMain` the main-panel minimum, `minRight` the panel
minimum).  The sum-to-100 part of the claim holds only conditionally:
the values sum to exactly 100 when the clamped sanitized values total
more than 100 and the proportional trim keeps both outer panels at or
above their floors, while a clamped total of at most 100 is returned
as-is, so the sum then equals that total and can be below 100. -/
theorem C1_safePanelWidth_valid (cw : ℚ) (hi : Bool) (p : NdvPanelsSize)
    (hcw : 0 < cw) :
    ∃ l m r : ℚ,
      safePanelWidth cw hi p = ⟨.fin l, .fin m, .fin r⟩ ∧
      0 ≤ l ∧ 0 ≤ m ∧ 0 ≤ r ∧
      minLeftPctQ cw hi ≤ l ∧ minMainPctQ cw ≤ m ∧ minPanelPctQ cw ≤ r ∧
      (clampedTotal cw hi p ≤ 100 → l + m + r = clampedTotal cw hi p) ∧
      (100 < clampedTotal cw hi p →
        minLeftPctQ cw hi ≤ clampedLeft cw hi p - trimLeftQ cw hi p →
        minPanelPctQ cw ≤ clampedRight cw p - trimRightQ cw hi p →
        l + m + r = 100) := by
  have hzne : clampedLeft cw hi p + clampedRight cw p ≠ 0 := by
    have h1 := clampedLeft_nonneg cw hi p
    have h2 : minPanelPctQ cw ≤ clampedRight cw p := le_max_left _ _
    have h3 := minPanelPctQ_pos cw hcw
    intro h0
    linarith
  rw [safePanelWidth_char]
  by_cases hT : 100 < clampedTotal cw hi p
  · rw [if_pos hT, if_neg hzne]
    refine ⟨max (minLeftPctQ cw hi) (clampedLeft cw hi p - trimLeftQ cw hi p),
      clampedMain cw p,
      max (minPanelPctQ cw) (clampedRight cw p - trimRightQ cw hi p),
      rfl, ?_, ?_, ?_, le_max_left _ _, le_max_left _ _, le_max_left _ _, ?_, ?_⟩
    · exact le_trans (minLeftPctQ_nonneg cw hi) (le_max_left _ _)
    · exact le_trans (minMainPctQ_nonneg cw) (le_max_left _ _)
    · exact le_trans (minPanelPctQ_nonneg cw) (le_max_left _ _)
    · intro hle
      linarith
    · intro _ h1 h2
      rw [max_eq_right h1, max_eq_right h2, trimRightQ, clampedTotal]
      ring
  · rw [if_neg hT]
    refine ⟨clampedLeft cw hi p, clampedMain cw p, clampedRight cw p, rfl,
      clampedLeft_nonneg cw hi p, clampedMain_nonneg cw p, clampedRight_nonneg cw p,
      le_max_left _ _, le_max_left _ _, le_max_left _ _, fun _ => rfl,
      fun h => absurd h hT⟩

/-- Witness for C1 at container width 1000 and panels (20, 50, 30). -/
theorem C1_witness :
    (0:ℚ) < 1000 ∧
    (∃ l m r : ℚ,
      safePanelWidth 1000 true ⟨.fin 20, .fin 50, .fin 30⟩ = ⟨.fin l, .fin m, .fin r⟩ ∧
      0 ≤ l ∧ 0 ≤ m ∧ 0 ≤ r ∧
      minLeftPctQ 1000 true ≤ l ∧ minMainPctQ 1000 ≤ m ∧ minPanelPctQ 1000 ≤ r ∧
      (clampedTotal 1000 true ⟨.fin 20, .fin 50, .fin 30⟩ ≤ 100 →
        l + m + r = clampedTotal 1000 true ⟨.fin 20, .fin 50, .fin 30⟩) ∧
      (100 < clampedTotal 1000 true ⟨.fin 20, .fin 50, .fin 30⟩ →
        minLeftPctQ 1000 true ≤ clampedLeft 1000 true ⟨.fin 20, .fin 50, .fin 30⟩ -
          trimLeftQ 1000 true ⟨.fin 20, .fin 50, .fin 30⟩ →
        minPanelPctQ 1000 ≤ clampedRight 1000 ⟨.fin 20, .fin 50, .fin 30⟩ -
          trimRightQ 1000 true ⟨.fin 20, .fin 50, .fin 30⟩ →
        l + m + r = 100)) :=
  ⟨by norm_num, C1_safePanelWidth_valid 1000 true ⟨.fin 20, .fin 50, .fin 30⟩ (by norm_num)⟩

/-- C1 counterexample: at container width 1000 with an input panel
present, the all-zero candidate is clamped up to (12, 36.8, 12), which
totals 60.8 — `safePanelWidth` does not always return a triple summing
to 100. -/
theorem C1_counterexample :
    panelsTotal (safePanelWidth 1000 true ⟨.fin 0, .fin 0, .fin 0⟩) =
        .fin (304/5) ∧ (304/5 : ℚ) ≠ 100 := by
  norm_num [safePanelWidth, minPanelWidthPercentage, minMainPanelWidthPercentage,
    pixelsToPercentage, MIN_PANEL_WIDTH_PX, MIN_MAIN_PANEL_WIDTH_PX, sanitizeValue,
    JsNum.isFin, JsNum.lt, JsNum.le, JsNum.max2, JsNum.add, JsNum.sub, JsNum.neg,
    JsNum.mul, JsNum.div, JsNum.toQ, max_def, panelsTotal]

/-- C2 counterexample: at container width 1000 with an input panel, the
candidate (12, 40, 80) normalizes to (12, 40, 1200/23) — the trim pushes
the left panel below its floor of 12 and re-clamps it, leaving the total
above 100 — and a second application trims the right panel further, to
2000/41, so `safePanelWidth` is not idempotent. -/
theorem C2_counterexample :
    safePanelWidth 1000 true (safePanelWidth 1000 true ⟨.fin 12, .fin 40, .fin 80⟩) ≠
      safePanelWidth 1000 true ⟨.fin 12, .fin 40, .fin 80⟩ := by
  norm_num [safePanelWidth, minPanelWidthPercentage, minMainPanelWidthPercentage,
    pixelsToPercentage, MIN_PANEL_WIDTH_PX, MIN_MAIN_PANEL_WIDTH_PX, sanitizeValue,
    JsNum.isFin, JsNum.lt, JsNum.le, JsNum.max2, JsNum.add, JsNum.sub, JsNum.neg,
    JsNum.mul, JsNum.div, JsNum.toQ, max_def]

/-- C2 (amended): `safePanelWidth` is idempotent on every candidate whose
normalized result sums to at most 100 — in particular on every
already-valid allocation.  (When floor re-clamping during overflow
trimming leaves the result summing above 100, a second application can
trim the outer panels further, as the counterexample shows.) -/
theorem C2_safePanelWidth_idempotent (cw : ℚ) (hi : Bool) (p : NdvPanelsSize)
    (h : JsNum.le (panelsTotal (safePanelWidth cw hi p)) (.fin 100) = true) :
    safePanelWidth cw hi (safePanelWidth cw hi p) = safePanelWidth cw hi p := by
  rw [safePanelWidth_char cw hi p] at h ⊢
  by_cases hT : 100 < clampedTotal cw hi p
  · rw [if_pos hT] at h ⊢
    by_cases hz : clampedLeft cw hi p + clampedRight cw p = 0
    · rw [if_pos hz] at h
      simp [panelsTotal, JsNum.le] at h
    · rw [if_neg hz] at h ⊢
      have hsum : max (minLeftPctQ cw hi) (clampedLeft cw hi p - trimLeftQ cw hi p) +
          clampedMain cw p +
          max (minPanelPctQ cw) (clampedRight cw p - trimRightQ cw hi p) ≤ 100 := by
        simpa [panelsTotal] using h
      exact safePanelWidth_fixed cw hi _ _ _ (le_max_left _ _) (le_max_left _ _)
        (le_max_left _ _) hsum
  · rw [if_neg hT] at h ⊢
    have hsum : clampedLeft cw hi p + clampedMain cw p + clampedRight cw p ≤ 100 := by
      simpa [panelsTotal] using h
    exact safePanelWidth_fixed cw hi _ _ _ (le_max_left _ _) (le_max_left _ _)
      (le_max_left _ _) hsum

/-- Witness for C2 at container width 1000 and panels (29, 42, 29). -/
theorem C2_witness :
    JsNum.le (panelsTotal (safePanelWidth 1000 true ⟨.fin 29, .fin 42, .fin 29⟩))
        (.fin 100) = true ∧
      safePanelWidth 1000 true (safePanelWidth 1000 true ⟨.fin 29, .fin 42, .fin 29⟩) =
        safePanelWidth 1000 true ⟨.fin 29, .fin 42, .fin 29⟩ :=
  ⟨by norm_num [safePanelWidth, minPanelWidthPercentage, minMainPanelWidthPercentage,
    pixelsToPercentage, MIN_PANEL_WIDTH_PX, MIN_MAIN_PANEL_WIDTH_PX, sanitizeValue,
    JsNum.isFin, JsNum.lt, JsNum.le, JsNum.max2, JsNum.add, JsNum.sub, JsNum.neg,
    JsNum.mul, JsNum.div, JsNum.toQ, max_def, panelsTotal],
   C2_safePanelWidth_idempotent 1000 true ⟨.fin 29, .fin 42, .fin 29⟩
     (by norm_num [safePanelWidth, minPanelWidthPercentage, minMainPanelWidthPercentage,
    pixelsToPercentage, MIN_PANEL_WIDTH_PX, MIN_MAIN_PANEL_WIDTH_PX, sanitizeValue,
    JsNum.isFin, JsNum.lt, JsNum.le, JsNum.max2, JsNum.add, JsNum.sub, JsNum.neg,
    JsNum.mul, JsNum.div, JsNum.toQ, max_def, panelsTotal])⟩

/-- C3 counterexample: with no input panel, container width 1000, current
allocation (1, 40, 30) and a left-edge resize to width 300 px, the
minimum asserted by the claim (0 when no input panel is present) accepts the candidate
left of 4.2 and predicts a commit of `safePanelWidth` applied to
(max(0, 4.2), 36.8, 30); the code instead compares against the
unconditional panel minimum of 12 and rejects the gesture, leaving the
allocation unchanged — and the two results differ. -/
theorem C3_counterexample :
    onResize 1000 false ⟨.fin 1, .fin 40, .fin 30⟩ ⟨.fin 300, .left⟩ =
        ⟨.fin 1, .fin 40, .fin 30⟩ ∧
      safePanelWidth 1000 false ⟨.fin (max 0 (21/5)), .fin (184/5), .fin 30⟩ ≠
        ⟨.fin 1, .fin 40, .fin 30⟩ := by
  norm_num [safePanelWidth, minPanelWidthPercentage, minMainPanelWidthPercentage,
    pixelsToPercentage, MIN_PANEL_WIDTH_PX, MIN_MAIN_PANEL_WIDTH_PX, sanitizeValue,
    JsNum.isFin, JsNum.lt, JsNum.le, JsNum.max2, JsNum.add, JsNum.sub, JsNum.neg,
    JsNum.mul, JsNum.div, JsNum.toQ, max_def, onResize]

/-- C3 (amended): a left-edge resize compares the candidate left width
against the unconditional minimum panel width percentage, regardless of
whether an input panel is present: letting newMain = max(minMain%,
toPercentage(width)) and potentialLeft = left - (newMain - main), the
gesture is a no-op when potentialLeft is below the minimum panel width
percentage, and otherwise commits `safePanelWidth` of
(max(minPanel%, potentialLeft), newMain, right). -/
theorem C3_onResize_left (cw : ℚ) (hi : Bool) (ql qm qr pw : ℚ) :
    onResize cw hi ⟨.fin ql, .fin qm, .fin qr⟩ ⟨.fin pw, .left⟩ =
      (if ql - (max (minMainPctQ cw) ((pixelsToPercentage cw (.fin pw)).toQ) - qm) <
          minPanelPctQ cw
       then ⟨.fin ql, .fin qm, .fin qr⟩
       else safePanelWidth cw hi
         ⟨.fin (max (minPanelPctQ cw)
            (ql - (max (minMainPctQ cw) ((pixelsToPercentage cw (.fin pw)).toQ) - qm))),
          .fin (max (minMainPctQ cw) ((pixelsToPercentage cw (.fin pw)).toQ)),
          .fin qr⟩) := by
  have hp : pixelsToPercentage cw (.fin pw) =
      .fin ((pixelsToPercentage cw (.fin pw)).toQ) := by
    rw [pixelsToPercentage_fin, JsNum.toQ_fin]
  unfold onResize
  rw [minMainPanelWidthPercentage_eq, hp, minPanelWidthPercentage_eq]
  simp only [JsNum.max2_fin, JsNum.sub_fin, JsNum.lt_fin, decide_eq_true_eq,
    JsNum.toQ_fin]

/-- C4: `onDrag` never changes the main width — after any drag event, at
any container width and in either input-panel mode, the main field
equals its value before the call. -/
theorem C4_onDrag_preserves_main (cw : ℚ) (hi : Bool) (state : NdvPanelsSize)
    (x : JsNum) :
    (onDrag cw hi state x).main = state.main := by
  simp only [onDrag]
  split <;> rfl

/-- C5: whenever the candidate widths computed by `onDrag` — the
pointer-centred left width and the remaining right width, each clamped
to the panel minimum — total more than 100, the drag is rejected and the
allocation is left completely unchanged. -/
theorem C5_onDrag_rejects_overflow (cw : ℚ) (hi : Bool) (state : NdvPanelsSize)
    (x : JsNum)
    (h : JsNum.lt (.fin 100)
        (JsNum.add (JsNum.add (dragNewLeft cw state x) state.main)
          (dragNewRight cw state x)) = true) :
    onDrag cw hi state x = state := by
  unfold onDrag
  simp [h]

/-- Witness for C5: container width 1000, allocation (20, 90, 20),
pointer at x = 900 — the candidates are (45, 12) and 45+90+12 > 100. -/
theorem C5_witness :
    JsNum.lt (.fin 100)
        (JsNum.add
          (JsNum.add (dragNewLeft 1000 ⟨.fin 20, .fin 90, .fin 20⟩ (.fin 900))
            (JsNum.fin 90))
          (dragNewRight 1000 ⟨.fin 20, .fin 90, .fin 20⟩ (.fin 900))) = true ∧
      onDrag 1000 true ⟨.fin 20, .fin 90, .fin 20⟩ (.fin 900) =
        ⟨.fin 20, .fin 90, .fin 20⟩ :=
  ⟨by norm_num [safePanelWidth, minPanelWidthPercentage, minMainPanelWidthPercentage,
    pixelsToPercentage, MIN_PANEL_WIDTH_PX, MIN_MAIN_PANEL_WIDTH_PX, sanitizeValue,
    JsNum.isFin, JsNum.lt, JsNum.le, JsNum.max2, JsNum.add, JsNum.sub, JsNum.neg,
    JsNum.mul, JsNum.div, JsNum.toQ, max_def, dragNewLeft, dragNewRight],
   C5_onDrag_rejects_overflow 1000 true ⟨.fin 20, .fin 90, .fin 20⟩ (.fin 900)
     (by norm_num [safePanelWidth, minPanelWidthPercentage, minMainPanelWidthPercentage,
    pixelsToPercentage, MIN_PANEL_WIDTH_PX, MIN_MAIN_PANEL_WIDTH_PX, sanitizeValue,
    JsNum.isFin, JsNum.lt, JsNum.le, JsNum.max2, JsNum.add, JsNum.sub, JsNum.neg,
    JsNum.mul, JsNum.div, JsNum.toQ, max_def, dragNewLeft, dragNewRight])⟩

/-- Saving a finite, non-negative triple whose total is at most 200 and
loading it back leaves the key in place and commits its normalization. -/
lemma load_of_persisted_fin (cw : ℚ) (hi : Bool) (pt : MainPanelType) (l m r : ℚ)
    (h0l : 0 ≤ l) (h0m : 0 ≤ m) (h0r : 0 ≤ r) (hsum : l + m + r ≤ 200) :
    loadPanelSize cw hi pt (persistPanelSize ⟨.fin l, .fin m, .fin r⟩) =
      (persistPanelSize ⟨.fin l, .fin m, .fin r⟩,
       safePanelWidth cw hi ⟨.fin l, .fin m, .fin r⟩) := by
  have hv : isValidStoredSize ⟨.fin l, .fin m, .fin r⟩ = true := by
    simp [isValidStoredSize, JsNum.isFin, h0l, h0m, h0r, hsum]
  simp [loadPanelSize, persistPanelSize, jsonRound, jsonField, hv]

/-- C6 counterexample: at container width 240 the minimums are 50 (outer)
and 460/3 ≈ 153.3 (main), so the normalized form of the all-zero triple
is (50, 460/3, 50), which totals above the 200 acceptance bound; saving
and re-loading it rejects the stored value and commits the normalized
default (50, 175, 50) instead of the normalization of the saved value. -/
theorem C6_counterexample :
    (loadPanelSize 240 true .regular
        (persistPanelSize (safePanelWidth 240 true ⟨.fin 0, .fin 0, .fin 0⟩))).2 ≠
      safePanelWidth 240 true (safePanelWidth 240 true ⟨.fin 0, .fin 0, .fin 0⟩) := by
  norm_num [safePanelWidth, minPanelWidthPercentage, minMainPanelWidthPercentage,
    pixelsToPercentage, MIN_PANEL_WIDTH_PX, MIN_MAIN_PANEL_WIDTH_PX, sanitizeValue,
    JsNum.isFin, JsNum.lt, JsNum.le, JsNum.max2, JsNum.add, JsNum.sub, JsNum.neg,
    JsNum.mul, JsNum.div, JsNum.toQ, max_def, loadPanelSize, persistPanelSize,
    jsonRound, jsonField, isValidStoredSize, defaultPanelSize,
    DEFAULT_REGULAR_MAIN_WIDTH_PX]

/-- C6 (amended): the persistence round-trip holds for every normalized
allocation whose fields total at most 200 (the load-time acceptance
bound): saving `safePanelWidth x` and loading it back leaves the stored
key in place and commits `safePanelWidth` of the saved allocation.  (A
normalized allocation whose floor-driven total exceeds 200 — possible at
very narrow containers — is instead rejected on load, as the
counterexample shows.) -/
theorem C6_persist_load_roundtrip (cw : ℚ) (hi : Bool) (pt : MainPanelType)
    (x : NdvPanelsSize)
    (h : JsNum.le (panelsTotal (safePanelWidth cw hi x)) (.fin 200) = true) :
    loadPanelSize cw hi pt (persistPanelSize (safePanelWidth cw hi x)) =
      (persistPanelSize (safePanelWidth cw hi x),
       safePanelWidth cw hi (safePanelWidth cw hi x)) := by
  rw [safePanelWidth_char cw hi x] at h ⊢
  by_cases hT : 100 < clampedTotal cw hi x
  · rw [if_pos hT] at h ⊢
    by_cases hz : clampedLeft cw hi x + clampedRight cw x = 0
    · rw [if_pos hz] at h
      simp [panelsTotal, JsNum.le] at h
    · rw [if_neg hz] at h ⊢
      have hsum : max (minLeftPctQ cw hi) (clampedLeft cw hi x - trimLeftQ cw hi x) +
          clampedMain cw x +
          max (minPanelPctQ cw) (clampedRight cw x - trimRightQ cw hi x) ≤ 200 := by
        simpa [panelsTotal] using h
      exact load_of_persisted_fin cw hi pt _ _ _
        (le_trans (minLeftPctQ_nonneg cw hi) (le_max_left _ _))
        (le_trans (minMainPctQ_nonneg cw) (le_max_left _ _))
        (le_trans (minPanelPctQ_nonneg cw) (le_max_left _ _)) hsum
  · rw [if_neg hT] at h ⊢
    have hsum : clampedLeft cw hi x + clampedMain cw x + clampedRight cw x ≤ 200 := by
      simpa [panelsTotal] using h
    exact load_of_persisted_fin cw hi pt _ _ _ (clampedLeft_nonneg cw hi x)
      (clampedMain_nonneg cw x) (clampedRight_nonneg cw x) hsum

/-- Witness for C6 at container width 1000 and panels (29, 42, 29). -/
theorem C6_witness :
    JsNum.le (panelsTotal (safePanelWidth 1000 true ⟨.fin 29, .fin 42, .fin 29⟩))
        (.fin 200) = true ∧
      loadPanelSize 1000 true .regular
          (persistPanelSize (safePanelWidth 1000 true ⟨.fin 29, .fin 42, .fin 29⟩)) =
        (persistPanelSize (safePanelWidth 1000 true ⟨.fin 29, .fin 42, .fin 29⟩),
         safePanelWidth 1000 true (safePanelWidth 1000 true ⟨.fin 29, .fin 42, .fin 29⟩)) :=
  ⟨by norm_num [safePanelWidth, minPanelWidthPercentage, minMainPanelWidthPercentage,
    pixelsToPercentage, MIN_PANEL_WIDTH_PX, MIN_MAIN_PANEL_WIDTH_PX, sanitizeValue,
    JsNum.isFin, JsNum.lt, JsNum.le, JsNum.max2, JsNum.add, JsNum.sub, JsNum.neg,
    JsNum.mul, JsNum.div, JsNum.toQ, max_def, panelsTotal],
   C6_persist_load_roundtrip 1000 true .regular ⟨.fin 29, .fin 42, .fin 29⟩
     (by norm_num [safePanelWidth, minPanelWidthPercentage, minMainPanelWidthPercentage,
    pixelsToPercentage, MIN_PANEL_WIDTH_PX, MIN_MAIN_PANEL_WIDTH_PX, sanitizeValue,
    JsNum.isFin, JsNum.lt, JsNum.le, JsNum.max2, JsNum.add, JsNum.sub, JsNum.neg,
    JsNum.mul, JsNum.div, JsNum.toQ, max_def, panelsTotal])⟩

/-- C7: loading a stored value that parses but fails the structural
validity check (a non-finite field, a negative field, or a total above
200) removes the stored key and commits `safePanelWidth` of the default
allocation of the variant. -/
theorem C7_load_invalid_clears (cw : ℚ) (hi : Bool) (pt : MainPanelType)
    (p : NdvPanelsSize) (h : isValidStoredSize p = false) :
    loadPanelSize cw hi pt (some (.parsed p)) =
      (none, safePanelWidth cw hi (defaultPanelSize cw pt)) := by
  simp [loadPanelSize, h]

/-- Witness for C7: a stored triple with a negative left field at
container width 1000. -/
theorem C7_witness :
    isValidStoredSize ⟨.fin (-1), .fin 50, .fin 50⟩ = false ∧
      loadPanelSize 1000 true .regular (some (.parsed ⟨.fin (-1), .fin 50, .fin 50⟩)) =
        (none, safePanelWidth 1000 true (defaultPanelSize 1000 .regular)) :=
  ⟨by norm_num [isValidStoredSize, JsNum.isFin, JsNum.le, JsNum.add],
   C7_load_invalid_clears 1000 true .regular ⟨.fin (-1), .fin 50, .fin 50⟩
     (by norm_num [isValidStoredSize, JsNum.isFin, JsNum.le, JsNum.add])⟩

/-- C8 counterexample: at container width 240 the regular default
allocation is (-37.5, 175, -37.5), which fails the validity check, so
loading an unparseable stored string falls through to the invalid-data
path and deletes the key — parse failure does not always leave the
stored key in place. -/
theorem C8_counterexample :
    (loadPanelSize 240 true .regular (some .unparseable)).1 ≠ some .unparseable := by
  norm_num [loadPanelSize, defaultPanelSize, isValidStoredSize,
    DEFAULT_REGULAR_MAIN_WIDTH_PX, pixelsToPercentage, JsNum.isFin, JsNum.le,
    JsNum.add, JsNum.sub, JsNum.neg, JsNum.mul, JsNum.div]
  exact fun hc => Option.noConfusion hc

/-- C8 (amended): loading an unparseable stored string always commits
`safePanelWidth` of the default allocation of the variant; the stored key is
left in place exactly when the default allocation itself passes the
structural validity check, and is deleted otherwise (which happens at
container widths narrow enough to make the computed default have
negative outer panels). -/
theorem C8_load_unparseable (cw : ℚ) (hi : Bool) (pt : MainPanelType) :
    loadPanelSize cw hi pt (some .unparseable) =
      (if isValidStoredSize (defaultPanelSize cw pt) then some .unparseable else none,
       safePanelWidth cw hi (defaultPanelSize cw pt)) := by
  simp only [loadPanelSize]
  split_ifs <;> rfl

/-- C9: the unit converters never divide by an unguarded zero: for every
finite pixel and percentage argument, `pixelsToPercentage` returns 0
whenever the container width is not positive and
`pixels / containerWidth * 100` otherwise, and `percentageToPixels`
returns 0 whenever the container width is not positive and
`percentage / 100 * containerWidth` otherwise; both results are always
finite. -/
theorem C9_unit_conversions (cw px pct : ℚ) :
    pixelsToPercentage cw (.fin px) = .fin (if 0 < cw then px / cw * 100 else 0) ∧
    percentageToPixels cw (.fin pct) = .fin (if 0 < cw then pct / 100 * cw else 0) := by
  constructor
  · rw [pixelsToPercentage_fin]
    congr 1
    by_cases h : cw ≤ 0
    · rw [if_pos h, if_neg (not_lt.mpr h)]
    · rw [if_neg h, if_pos (not_le.mp h)]
  · unfold percentageToPixels
    by_cases h : cw ≤ 0
    · rw [if_pos h, if_neg (not_lt.mpr h)]
    · rw [if_neg h, JsNum.div_fin_of_ne _ _ (by norm_num : (100:ℚ) ≠ 0),
        JsNum.mul_fin, if_pos (not_le.mp h)]

/-- C10 (implicit): when the container width is zero or negative all
converted minimums are 0, and for every current allocation with finite
non-negative fields and main at most 100, `onDrag` at any pointer
position commits left = 0 and right = 100 - main, leaving main
unchanged — the gesture is never rejected and the left panel collapses
regardless of the pointer position. -/
theorem C10_onDrag_zero_width (cw : ℚ) (hi : Bool) (x : JsNum) (ql qm qr : ℚ)
    (hcw : cw ≤ 0) (_hl : 0 ≤ ql) (hm : 0 ≤ qm) (_hr : 0 ≤ qr) (hm100 : qm ≤ 100) :
    onDrag cw hi ⟨.fin ql, .fin qm, .fin qr⟩ x = ⟨.fin 0, .fin qm, .fin (100 - qm)⟩ := by
  have hmp : minPanelWidthPercentage cw = .fin 0 := by
    simp [minPanelWidthPercentage, pixelsToPercentage, hcw]
  have hpp : pixelsToPercentage cw x = .fin 0 := by
    simp [pixelsToPercentage, hcw]
  have h2 : JsNum.div (.fin qm) (.fin 2) = .fin (qm / 2) :=
    JsNum.div_fin_of_ne _ _ two_ne_zero
  have hnl : dragNewLeft cw ⟨.fin ql, .fin qm, .fin qr⟩ x = .fin 0 := by
    rw [dragNewLeft, hmp, hpp]
    show JsNum.max2 (.fin 0) (JsNum.sub (.fin 0) (JsNum.div (.fin qm) (.fin 2))) = .fin 0
    rw [h2, JsNum.sub_fin, JsNum.max2_fin]
    congr 1
    rw [max_eq_left (by linarith)]
  have hnr : dragNewRight cw ⟨.fin ql, .fin qm, .fin qr⟩ x = .fin (100 - qm) := by
    rw [dragNewRight, hmp, hnl]
    show JsNum.max2 (.fin 0) (JsNum.sub (JsNum.sub (.fin 100) (.fin 0)) (.fin qm)) =
      .fin (100 - qm)
    rw [JsNum.sub_fin, JsNum.sub_fin, JsNum.max2_fin]
    congr 1
    rw [max_eq_right (by linarith)]
    ring
  have hq0 : minPanelPctQ cw = 0 := by rw [minPanelPctQ_eq, if_pos hcw]
  have hqm0 : minMainPctQ cw = 0 := by rw [minMainPctQ_eq, if_pos hcw]
  have hqL0 : minLeftPctQ cw hi = 0 := by
    rw [minLeftPctQ]
    split_ifs
    · exact hq0
    · rfl
  have hfix : safePanelWidth cw hi ⟨.fin 0, .fin qm, .fin (100 - qm)⟩ =
      ⟨.fin 0, .fin qm, .fin (100 - qm)⟩ :=
    safePanelWidth_fixed cw hi 0 qm (100 - qm) (by rw [hqL0]) (by rw [hqm0]; exact hm)
      (by rw [hq0]; linarith) (by linarith)
  simp only [onDrag, hnl, hnr, JsNum.add_fin, JsNum.lt_fin]
  rw [if_neg (by simp only [decide_eq_true_eq]; intro hcon; linarith), hfix]

/-- Witness for C10: container width 0, allocation (10, 50, 40), pointer
at x = 123. -/
theorem C10_witness :
    (0:ℚ) ≤ 0 ∧ (0:ℚ) ≤ 10 ∧ (0:ℚ) ≤ 50 ∧ (0:ℚ) ≤ 40 ∧ (50:ℚ) ≤ 100 ∧
      onDrag 0 true ⟨.fin 10, .fin 50, .fin 40⟩ (.fin 123) =
        ⟨.fin 0, .fin 50, .fin (100 - 50)⟩ :=
  ⟨by norm_num, by norm_num, by norm_num, by norm_num, by norm_num,
   C10_onDrag_zero_width 0 true (.fin 123) 10 50 40 (by norm_num) (by norm_num)
     (by norm_num) (by norm_num) (by norm_num)⟩

end NdvLayout
